import Mathlib

/-!
Shallow embedding of the ImpalaToGo dfs_cache core:
`managed-file.hpp` (the Managed File state machine) and
`filesystem-lru-cache.{hpp,cc}` (the file-system LRU cache layer).

Conventions of the embedding:
* machine integers are `Nat` / `Int`; the one place where C++ unsigned
  wraparound matters (`std::size_t` subtraction converted to `long long`
  in `File::estimated_size(size_t)`) is modelled explicitly with
  arithmetic modulo `2 ^ 64`;
* `boost::posix_time::ptime` values are modelled as `Nat` ticks; a
  default-constructed (never assigned) ptime is `Option.none`;
* fields of `managed_file::File` that the constructor may leave
  unassigned (the `m_users` / `m_subscribers` atomics and the resync
  interval) are `Option`-typed: `none` means "never stored";
* the `restoreNetworkPathFromLocal` path codec is implemented in
  `managed-file.cc`, which is not part of the provided sources; the
  embedding is parameterised by an arbitrary codec function;
* the base class `LRUCache<T>` lives in `lru-cache.hpp`, also not among
  the provided sources; its `add` is modelled from the spec
  (duplicate-checked insertion, candidate pointer passed by value,
  insertion always proceeds) — see `lruCacheBaseAdd`;
* heap events are made explicit: functions return, besides the updated
  values, flags describing whether the C++ code deleted the object or
  unlinked the on-disk file.
-/

namespace DfsCache

/-- States of a managed file, from `managed_file::State` in `managed-file.hpp`. -/
inductive State
  | FILE_IS_MARKED_FOR_DELETION
  | FILE_IS_IN_USE_BY_SYNC
  | FILE_HAS_CLIENTS
  | FILE_IS_AMORPHOUS
  | FILE_IS_IDLE
  | FILE_IS_FORBIDDEN
  | FILE_IS_UNDER_WRITE
deriving DecidableEq, Repr

/-- Origin file-system type (`DFS_TYPE` from `common-include.hpp`, not under the
provided sources; only `NON_SPECIFIED` is referenced by the embedded code, the
other constructors stand for the supported schemes). -/
inductive DFS_TYPE
  | NON_SPECIFIED
  | hdfs
  | tachyon
  | local
deriving DecidableEq, Repr

/-- Result of `restoreNetworkPathFromLocal`: a file-system descriptor with a
validity flag (`FileSystemDescriptor` of `common-include.hpp`). -/
structure FileSystemDescriptor where
  valid : Bool
  dfs_type : DFS_TYPE
  host : String
  port : Int
deriving DecidableEq, Repr

/-- Full result of the path codec `File::restoreNetworkPathFromLocal`:
the descriptor plus the two by-reference outputs (network path, relative name).
The codec itself is implemented in `managed-file.cc` (not under the provided
sources), so the embedding is parameterised over it. -/
structure CodecResult where
  descriptor : FileSystemDescriptor
  fqnp : String
  relative : String
deriving DecidableEq, Repr

/-- A path codec: local path to network identity. -/
abbrev Codec : Type := String → CodecResult

/-- Modelled from the spec: `File::_defaultTimeSliceInMinutes`, the default
time slice between resync attempts; its initialiser lives in `managed-file.cc`
(not under the provided sources). The spec fixes the default retry interval at
6 minutes. -/
def defaultTimeSliceInMinutes : Nat := 6

/-- The managed file entity, `managed_file::File`.
`m_users`, `m_subscribers` and `m_duration_next_attempt_to_sync` are
`Option`-typed because the constructor leaves them unassigned on the
invalid-path early return; `m_lastsyncattempt` starts as a
default-constructed ptime (`none`).  The `boost::function` member
`m_weightIsChangedcallback` is modelled by the flag "a callback is
assigned"; the invocation of the callback is returned as an event by
`File.estimated_size_set`. -/
structure File where
  m_state : State
  m_subscribers : Option Int
  m_fqp : String
  m_fqnp : String
  m_size : Nat
  m_estimatedsize : Nat
  m_prevsize : Nat
  m_filename : String
  m_originhost : String
  m_originport : String
  m_schema : DFS_TYPE
  m_duration_next_attempt_to_sync : Option Nat
  m_lastsyncattempt : Option Nat
  m_users : Option Nat
  m_weightIsChangedcallback : Bool
deriving DecidableEq, Repr

/-- The constructor `File::File(const char* path)`.
Initialiser list: `m_fqp(path), m_size(0), m_estimatedsize(0), m_prevsize(0),
m_schema(NON_SPECIFIED), m_weightIsChangedcallback(0)`; the remaining string
members default-construct to `""` and the ptime to not-a-date-time (`none`).
Body: store `FILE_IS_AMORPHOUS`; run the codec (which writes `m_fqnp` and
`m_filename` through references); on an invalid descriptor set
`FILE_IS_FORBIDDEN` and return early — before `m_users`, `m_subscribers`
and the resync interval are assigned. -/
def File.construct (codec : Codec) (path : String) : File :=
  let r := codec path
  let base : File :=
    { m_state := State.FILE_IS_AMORPHOUS
      m_subscribers := none
      m_fqp := path
      m_fqnp := r.fqnp
      m_size := 0
      m_estimatedsize := 0
      m_prevsize := 0
      m_filename := r.relative
      m_originhost := ""
      m_originport := ""
      m_schema := DFS_TYPE.NON_SPECIFIED
      m_duration_next_attempt_to_sync := none
      m_lastsyncattempt := none
      m_users := none
      m_weightIsChangedcallback := false }
  if r.descriptor.valid = false then
    { base with m_state := State.FILE_IS_FORBIDDEN }
  else
    { base with
      m_schema := r.descriptor.dfs_type
      m_originhost := r.descriptor.host
      m_originport := toString r.descriptor.port
      m_users := some 0
      m_subscribers := some 0
      m_duration_next_attempt_to_sync := some defaultTimeSliceInMinutes }

/-- The constructor `File::File(const char* path, const WeightChangedEvent&)`,
which delegates to the one-argument constructor and then assigns the
weight-changed callback. -/
def File.constructWithEvent (codec : Codec) (path : String) : File :=
  { File.construct codec path with m_weightIsChangedcallback := true }

/-- `File::valid()`: the file was resolved by the registry (state is neither
`FILE_IS_FORBIDDEN` nor `FILE_IS_MARKED_FOR_DELETION`). -/
def File.valid (f : File) : Bool :=
  if f.m_state = State.FILE_IS_FORBIDDEN ∨ f.m_state = State.FILE_IS_MARKED_FOR_DELETION
  then false else true

/-- The state setter `File::state(State)`. It refuses to change the state of a
file already marked for deletion; assigning `FILE_IS_IN_USE_BY_SYNC` also
stamps `m_lastsyncattempt` with the current time (`now`). -/
def File.state_set (f : File) (s : State) (now : Nat) : File :=
  if f.m_state = State.FILE_IS_MARKED_FOR_DELETION then f
  else
    let f1 := if s = State.FILE_IS_IN_USE_BY_SYNC
              then { f with m_lastsyncattempt := some now } else f
    { f1 with m_state := s }

/-- `File::mark_for_deletion()`: under the state-changed mutex, three
successive `compare_exchange_strong` calls against `FILE_IS_IDLE`,
`FILE_IS_FORBIDDEN`, `FILE_IS_AMORPHOUS`; on a successful CAS the result is
`true` iff `m_subscribers == 0` (a `none` subscriber count models a
never-assigned atomic, which no theorem below relies on); when every CAS
fails the state is untouched and the result is `false`. -/
def File.mark_for_deletion (f : File) : File × Bool :=
  if f.m_state = State.FILE_IS_IDLE then
    ({ f with m_state := State.FILE_IS_MARKED_FOR_DELETION }, f.m_subscribers == some 0)
  else if f.m_state = State.FILE_IS_FORBIDDEN then
    ({ f with m_state := State.FILE_IS_MARKED_FOR_DELETION }, f.m_subscribers == some 0)
  else if f.m_state = State.FILE_IS_AMORPHOUS then
    ({ f with m_state := State.FILE_IS_MARKED_FOR_DELETION }, f.m_subscribers == some 0)
  else
    (f, false)

/-- Two to the sixty-fourth: the modulus of `std::size_t` arithmetic on the
64-bit target. -/
def pow64 : Nat := 2 ^ 64

/-- `std::size_t` subtraction `a - b` (wraparound modulo `2 ^ 64`). -/
def sub64 (a b : Nat) : Nat := (pow64 + a % pow64 - b % pow64) % pow64

/-- Conversion of a `std::size_t` bit pattern to `long long`
(two's-complement reading, as on the gcc/x86-64 target). -/
def toSigned64 (n : Nat) : Int :=
  if n < 2 ^ 63 then (n : Int) else (n : Int) - (pow64 : Int)

/-- The setter `File::estimated_size(std::size_t size)`:
`long long delta = size - m_prevsize;` (unsigned wraparound, then signed
reading), fire the weight-changed callback with `delta` when one is assigned,
then update `m_prevsize` and `m_estimatedsize` to `size`.  The second
component is the fired event: `some delta` when the callback was invoked. -/
def File.estimated_size_set (f : File) (size : Nat) : File × Option Int :=
  let delta := toSigned64 (sub64 size f.m_prevsize)
  let fired := if f.m_weightIsChangedcallback then some delta else none
  ({ f with m_prevsize := size, m_estimatedsize := size }, fired)

/-- The local file system relevant to mtime updates: an association of path to
last-write time. -/
def FsState : Type := List (String × Nat)

/-- Lookup of a path's mtime (first matching entry). -/
def fsFindMtime : FsState → String → Option Nat
  | [], _ => none
  | kv :: rest, p => if kv.1 = p then some kv.2 else fsFindMtime rest p

/-- `boost::filesystem::last_write_time(path, time, ec)`: update the mtime of
an existing path with error code 0, or leave the file system unchanged and
report a nonzero error code (ENOENT = 2) for a missing path. -/
def fsSetMtime (fs : FsState) (p : String) (t : Nat) : FsState × Int :=
  if (fs.map Prod.fst).contains p then
    (fs.map fun kv => if kv.1 = p then (kv.1, t) else kv, 0)
  else (fs, 2)

/-- The setter `File::last_access(const boost::posix_time::ptime& time)`:
return `-1` at once when the state is `FILE_IS_FORBIDDEN`; otherwise write the
file-system mtime and return `ec.value()`.  The result carries the file object
(no member of which is written), the updated file system, and the returned
code. -/
def File.last_access_set (f : File) (fs : FsState) (t : Nat) : File × FsState × Int :=
  if f.m_state = State.FILE_IS_FORBIDDEN then (f, fs, -1)
  else
    let r := fsSetMtime fs f.m_fqp t
    (f, r.1, r.2)

/-! ## The file-system LRU cache layer -/

/-- `FileSystemLRUCache::isItemIdle`: the file can be removed when its state
is not `FILE_HAS_CLIENTS`. -/
def isItemIdle (f : File) : Bool :=
  f.m_state != State.FILE_HAS_CLIENTS

/-- Outcome of `FileSystemLRUCache::deleteFile(File*, bool physically)`:
the returned boolean, the content of the file object at return time (for a
refused deletion) or just before `delete file` (for a performed one), whether
the object was released (`delete file` ran), and whether the on-disk file was
dropped (`file->drop()` ran). -/
def deleteFile (f : File) (physically : Bool) (now : Nat) : Bool × File × Bool × Bool :=
  if isItemIdle f = false then (false, f, false, false)
  else
    (true, File.state_set f State.FILE_IS_MARKED_FOR_DELETION now, true, physically)

/-- `constructNew` of `filesystem-lru-cache.hpp`: construct a `File` from the
path and refuse it (delete, return null) when it was born
`FILE_IS_FORBIDDEN`. -/
def constructNew (codec : Codec) (path : String) : Option File :=
  let file := File.construct codec path
  if file.m_state = State.FILE_IS_FORBIDDEN then none else some file

/-- Scheduling / internal statuses (`status::StatusInternal` of
`common-include.hpp`, constructors restricted to the ones the embedded code
mentions). -/
inductive StatusInternal
  | OK
  | OPERATION_ASYNC_SCHEDULED
  | REQUEST_FAILED
  | NAMENODE_IS_NOT_CONFIGURED
  | DFS_NAMENODE_IS_NOT_REACHABLE
  | NOT_IMPLEMENTED
deriving DecidableEq, Repr

/-- Task-level statuses reported by the prepare completion callback. -/
inductive TaskOverallStatus
  | COMPLETED_OK
  | FAILURE
  | CANCELATION_SENT
  | NOT_RUN
deriving DecidableEq, Repr

/-- What the prepare completion callback receives: the `overall` flag, the
`canceled` flag and the task status.  (The progress list and the session
context only feed log messages.) -/
structure PrepareOutcome where
  overall : Bool
  cancelled : Bool
  status : TaskOverallStatus
deriving DecidableEq, Repr

/-- `FileSystemLRUCache::continuationFor(File*)`, sequentialised.
Inputs beyond the file: whether `std::stoi(file->port())` parses (the
`catch (...)` early return), the scheduling status returned by
`cachePrepareData`, and the callback outcome (meaningful only when the
request was scheduled, in which case the callback fires exactly once).
Result: the file object (`none` for a null input pointer) and the trace of
arguments passed to the state setter, in order.

The callback body sets `cbStatus = (status == COMPLETED_OK ? OK :
REQUEST_FAILED)` and, on a non-`COMPLETED_OK` status, already moves the file
to `FILE_IS_FORBIDDEN`; the `canceled` flag is received but never read.
After the wait, a non-`OK` `cbStatus` moves the file to `FILE_IS_FORBIDDEN`
(again), an `OK` one to `FILE_IS_IDLE`. -/
def continuationFor (file : Option File) (portParses : Bool)
    (sched : StatusInternal) (cb : PrepareOutcome) (now : Nat) :
    Option File × List State :=
  match file with
  | none => (none, [])
  | some f =>
    if f.valid = false then (some f, [])
    else
      let f1 := f.state_set State.FILE_IS_IN_USE_BY_SYNC now
      if portParses = false then (some f1, [State.FILE_IS_IN_USE_BY_SYNC])
      else if sched ≠ StatusInternal.OPERATION_ASYNC_SCHEDULED then
        (some f1, [State.FILE_IS_IN_USE_BY_SYNC])
      else
        let inCb :=
          if cb.status ≠ TaskOverallStatus.COMPLETED_OK then
            (f1.state_set State.FILE_IS_FORBIDDEN now, [State.FILE_IS_FORBIDDEN])
          else (f1, [])
        let cbStatus :=
          if cb.status = TaskOverallStatus.COMPLETED_OK then StatusInternal.OK
          else StatusInternal.REQUEST_FAILED
        if cbStatus ≠ StatusInternal.OK then
          (some (inCb.1.state_set State.FILE_IS_FORBIDDEN now),
           State.FILE_IS_IN_USE_BY_SYNC :: inCb.2 ++ [State.FILE_IS_FORBIDDEN])
        else
          (some (inCb.1.state_set State.FILE_IS_IDLE now),
           State.FILE_IS_IN_USE_BY_SYNC :: inCb.2 ++ [State.FILE_IS_IDLE])

/-- Modelled from the spec: `LRUCache<T>::add(item, duplicate)` of
`lru-cache.hpp`, which is not among the provided sources.  Per the spec,
duplicate admissions of an already-present key leave the store untouched and
report `duplicate`; a fresh key is inserted (insertion always proceeds, so
`success` is `true`; capacity-driven eviction is not modelled).  The item
pointer is received by value, so the caller's variable still designates the
candidate afterwards.  Result: store, `duplicate` flag, returned success. -/
def lruCacheBaseAdd (store : List (String × File)) (f : File) :
    List (String × File) × Bool × Bool :=
  if (store.map Prod.fst).contains f.m_fqp then (store, true, true)
  else (store ++ [(f.m_fqp, f)], false, true)

/-- `FileSystemLRUCache::add(path, file)` (`filesystem-lru-cache.hpp`):
construct a fresh `File` from the path, set its estimated size to the on-disk
size (`fsize`), pass it to the base `add`; on `duplicate` the candidate is
deleted (`delete file`), after which the caller's out-parameter dangles —
modelled as `none`.  Result: store, out-parameter content, returned flag. -/
def fsLruAdd (store : List (String × File)) (codec : Codec) (path : String)
    (fsize : Nat) : List (String × File) × Option File × Bool :=
  let candidate := (File.estimated_size_set (File.construct codec path) fsize).1
  let r := lruCacheBaseAdd store candidate
  if r.2.1 then (r.1, none, r.2.2)
  else (r.1, some candidate, r.2.2)

/-- A regular file found under the cache root: its path, mtime and size. -/
structure FsEntry where
  path : String
  mtime : Nat
  size : Nat
deriving DecidableEq, Repr

/-- One `std::multimap` insertion keyed by mtime: the new entry lands after
every entry with an mtime less than or equal to its own. -/
def multimapInsert : List FsEntry → FsEntry → List FsEntry
  | [], e => [e]
  | x :: xs, e => if e.mtime < x.mtime then e :: x :: xs else x :: multimapInsert xs e

/-- The `result_set` multimap of `FileSystemLRUCache::reload`: directory
entries in iteration order inserted one by one, i.e. a stable ascending sort
by mtime. -/
def sortByMtime (entries : List FsEntry) : List FsEntry :=
  entries.foldl multimapInsert []

/-- Replace the file stored under a path (models the `file->state(...)` call
mutating the object the store points to). -/
def setEntry (store : List (String × File)) (p : String) (f : File) :
    List (String × File) :=
  store.map fun kv => if kv.1 = p then (p, f) else kv

/-- The population loop of `FileSystemLRUCache::reload`: for each collected
entry, skip it when the codec rejects its path, otherwise `add` it and set the
state of the (stored) object to `FILE_IS_IDLE`.  A duplicate path makes `add`
leave the out-parameter dangling and the subsequent `file->state(...)` call
undefined — modelled as `none`. -/
def reloadLoop (codec : Codec) (store : List (String × File)) :
    List FsEntry → Option (List (String × File))
  | [] => some store
  | e :: rest =>
    if (codec e.path).descriptor.valid = false then reloadLoop codec store rest
    else
      match fsLruAdd store codec e.path e.size with
      | (store1, some f, _) =>
        reloadLoop codec (setEntry store1 e.path (File.state_set f State.FILE_IS_IDLE 0)) rest
      | (_, none, _) => none

/-- The mutable pieces of `FileSystemLRUCache` that `reload` touches. -/
structure CacheState where
  store : List (String × File)
  m_root : String
  m_startTime : Nat
deriving DecidableEq, Repr

/-- `FileSystemLRUCache::reload(root)`.  Inputs beyond the root string: the
regular files found under the root in directory-iteration order, and whether
the root exists and is a directory.  Faithful to the source:
return `false` at once on an empty root string; otherwise assign `m_root`,
collect and mtime-sort the regular files, `reset()` the store, then
dereference `result_set.begin()` to seed `m_startTime` — undefined behaviour
(`none`) when the multimap is empty — and run the population loop. -/
def reload (c : CacheState) (codec : Codec) (root : String)
    (entries : List FsEntry) (rootIsDir : Bool) : Option (CacheState × Bool) :=
  if root = "" then some (c, false)
  else
    let c0 := { c with m_root := root }
    let collected := if rootIsDir then sortByMtime entries else []
    let c1 := { c0 with store := [] }
    match collected with
    | [] => none
    | first :: _ =>
      let c2 := { c1 with m_startTime := first.mtime }
      match reloadLoop codec c2.store collected with
      | none => none
      | some st => some ({ c2 with store := st }, true)

/-! ## Concrete instances used by witnesses and counterexamples -/

/-- A fully initialised managed file in a given state (as produced by a
successful construction followed by the relevant transitions). -/
def fileWith (st : State) : File :=
  { m_state := st
    m_subscribers := some 0
    m_fqp := "/cache/hdfs/h_1/a"
    m_fqnp := "hdfs://h:1/a"
    m_size := 0
    m_estimatedsize := 0
    m_prevsize := 0
    m_filename := "a"
    m_originhost := "h"
    m_originport := "1"
    m_schema := DFS_TYPE.hdfs
    m_duration_next_attempt_to_sync := some 6
    m_lastsyncattempt := none
    m_users := some 0
    m_weightIsChangedcallback := false }

/-- A codec that rejects every local path. -/
def badCodec : Codec := fun _ =>
  ⟨⟨false, DFS_TYPE.NON_SPECIFIED, "", 0⟩, "", ""⟩

/-- A codec that accepts exactly the two local paths `/cache/a` and
`/cache/b`. -/
def demoCodec : Codec := fun p =>
  if p = "/cache/a" ∨ p = "/cache/b" then
    ⟨⟨true, DFS_TYPE.hdfs, "h", 1⟩, "hdfs://h:1" ++ p, p⟩
  else ⟨⟨false, DFS_TYPE.NON_SPECIFIED, "", 0⟩, "", ""⟩

/-- Three regular files under the demo root, in directory-iteration order:
two decodable ones (mtimes 20 and 10) and an undecodable one (mtime 5). -/
def demoEntries : List FsEntry :=
  [⟨"/cache/b", 20, 2⟩, ⟨"/cache/a", 10, 1⟩, ⟨"/cache/x", 5, 9⟩]

/-- A one-file local file system holding the path of `fileWith`. -/
def fsA : FsState := [("/cache/hdfs/h_1/a", 0)]

/-- A callback outcome reporting plain success. -/
def cbOutOK : PrepareOutcome := ⟨true, false, TaskOverallStatus.COMPLETED_OK⟩

/-- A callback outcome reporting failure. -/
def cbFail : PrepareOutcome := ⟨false, false, TaskOverallStatus.FAILURE⟩

/-! ## Helper lemmas -/

/-- The state setter stores its argument whenever the file is not already
marked for deletion. -/
theorem state_set_m_state (f : File) (s : State) (now : Nat)
    (h : f.m_state ≠ State.FILE_IS_MARKED_FOR_DELETION) :
    (File.state_set f s now).m_state = s := by
  unfold File.state_set
  rw [if_neg h]

/-- The constructor stores the given path as the fully qualified local path. -/
theorem construct_m_fqp (codec : Codec) (path : String) :
    (File.construct codec path).m_fqp = path := by
  simp only [File.construct]
  split <;> rfl

/-- `estimated_size` leaves the local path untouched. -/
theorem estimated_size_set_m_fqp (f : File) (n : Nat) :
    ((File.estimated_size_set f n).1).m_fqp = f.m_fqp := rfl

/-- `estimated_size` leaves the state untouched. -/
theorem estimated_size_set_m_state (f : File) (n : Nat) :
    ((File.estimated_size_set f n).1).m_state = f.m_state := rfl

/-- `std::size_t` subtraction read back as `long long` is the exact signed
difference as long as both operands fit in 63 bits. -/
theorem toSigned64_sub64 (a b : Nat) (ha : a < 2 ^ 63) (hb : b < 2 ^ 63) :
    toSigned64 (sub64 a b) = (a : Int) - (b : Int) := by
  have h1 : (2 : Nat) ^ 63 = 9223372036854775808 := by norm_num
  have h2 : pow64 = 18446744073709551616 := by norm_num [pow64]
  rw [h1] at ha hb
  have ha2 : a % pow64 = a := Nat.mod_eq_of_lt (by rw [h2]; omega)
  have hb2 : b % pow64 = b := Nat.mod_eq_of_lt (by rw [h2]; omega)
  unfold sub64
  rw [ha2, hb2]
  rcases le_or_lt b a with hba | hab
  · have e1 : (pow64 + a - b) % pow64 = a - b := by rw [h2]; omega
    rw [e1]
    unfold toSigned64
    rw [if_pos (by rw [h1]; omega), Nat.cast_sub hba]
  · have e1 : (pow64 + a - b) % pow64 = pow64 + a - b := by rw [h2]; omega
    rw [e1]
    unfold toSigned64
    rw [if_neg (by rw [h1, h2]; omega), Nat.cast_sub (by rw [h2]; omega)]
    push_cast
    omega

/-- Updating the mtime of a present path makes it read back as the new
value. -/
theorem fsFindMtime_update (fs : FsState) (p : String) (t : Nat)
    (h : (fs.map Prod.fst).contains p = true) :
    fsFindMtime (fs.map fun kv => if kv.1 = p then (kv.1, t) else kv) p = some t := by
  induction fs with
  | nil => simp [List.contains] at h
  | cons kv rest ih =>
    by_cases hk : kv.1 = p
    · simp [fsFindMtime, hk]
    · have h' : (rest.map Prod.fst).contains p = true := by
        simp only [List.map_cons, List.contains_cons, Bool.or_eq_true] at h
        rcases h with h | h
        · exact absurd (eq_of_beq h).symm hk
        · exact h
      simp [fsFindMtime, hk, ih h']

/-! ## Claim theorems -/

/-- C2: `mark_for_deletion()` compare-and-sets the state against
`{IDLE, FORBIDDEN, AMORPHOUS}`.  When the current state is in that set, the
state becomes `FILE_IS_MARKED_FOR_DELETION` (and nothing else changes) and the
call returns `true` exactly when `subscribers == 0` — so with subscribers
remaining the file is left marked for deletion and `false` is returned.  When
the state is outside the set, the file is unchanged and `false` is
returned. -/
theorem mark_for_deletion_spec (f : File) (s : Int) (hs : f.m_subscribers = some s) :
    ((f.m_state = State.FILE_IS_IDLE ∨ f.m_state = State.FILE_IS_FORBIDDEN ∨
        f.m_state = State.FILE_IS_AMORPHOUS) →
      (File.mark_for_deletion f).1 = { f with m_state := State.FILE_IS_MARKED_FOR_DELETION } ∧
      ((File.mark_for_deletion f).2 = true ↔ s = 0)) ∧
    (¬(f.m_state = State.FILE_IS_IDLE ∨ f.m_state = State.FILE_IS_FORBIDDEN ∨
        f.m_state = State.FILE_IS_AMORPHOUS) →
      File.mark_for_deletion f = (f, false)) := by
  unfold File.mark_for_deletion
  constructor
  · rintro (h | h | h) <;> simp [h, hs]
  · intro h
    push_neg at h
    obtain ⟨h1, h2, h3⟩ := h
    simp [h1, h2, h3]

/-- C2 witness: an `IDLE` file with two subscribers ends up marked for
deletion while the call reports `false`. -/
theorem mark_for_deletion_spec_witness :
    ({ fileWith State.FILE_IS_IDLE with m_subscribers := some 2 } : File).m_subscribers =
      some (2 : Int) ∧
    ((({ fileWith State.FILE_IS_IDLE with m_subscribers := some 2 } : File).m_state =
          State.FILE_IS_IDLE ∨
        ({ fileWith State.FILE_IS_IDLE with m_subscribers := some 2 } : File).m_state =
          State.FILE_IS_FORBIDDEN ∨
        ({ fileWith State.FILE_IS_IDLE with m_subscribers := some 2 } : File).m_state =
          State.FILE_IS_AMORPHOUS) →
      (File.mark_for_deletion
            { fileWith State.FILE_IS_IDLE with m_subscribers := some 2 }).1 =
        { ({ fileWith State.FILE_IS_IDLE with m_subscribers := some 2 } : File) with
            m_state := State.FILE_IS_MARKED_FOR_DELETION } ∧
      ((File.mark_for_deletion
            { fileWith State.FILE_IS_IDLE with m_subscribers := some 2 }).2 = true ↔
        (2 : Int) = 0)) ∧
    (¬(({ fileWith State.FILE_IS_IDLE with m_subscribers := some 2 } : File).m_state =
          State.FILE_IS_IDLE ∨
        ({ fileWith State.FILE_IS_IDLE with m_subscribers := some 2 } : File).m_state =
          State.FILE_IS_FORBIDDEN ∨
        ({ fileWith State.FILE_IS_IDLE with m_subscribers := some 2 } : File).m_state =
          State.FILE_IS_AMORPHOUS) →
      File.mark_for_deletion { fileWith State.FILE_IS_IDLE with m_subscribers := some 2 } =
        ({ fileWith State.FILE_IS_IDLE with m_subscribers := some 2 }, false)) :=
  ⟨rfl, mark_for_deletion_spec { fileWith State.FILE_IS_IDLE with m_subscribers := some 2 } 2 rfl⟩

/-- C3: `FILE_IS_MARKED_FOR_DELETION` is terminal — the state setter returns
without storing for a file already marked for deletion, whatever the target
state. -/
theorem marked_for_deletion_terminal (f : File) (s : State) (now : Nat)
    (h : f.m_state = State.FILE_IS_MARKED_FOR_DELETION) :
    File.state_set f s now = f := by
  unfold File.state_set
  rw [if_pos h]

/-- C3 witness: a marked-for-deletion file stays unchanged under a setter
call targeting `FILE_IS_IDLE`. -/
theorem marked_for_deletion_terminal_witness :
    (fileWith State.FILE_IS_MARKED_FOR_DELETION).m_state =
      State.FILE_IS_MARKED_FOR_DELETION ∧
    File.state_set (fileWith State.FILE_IS_MARKED_FOR_DELETION) State.FILE_IS_IDLE 3 =
      fileWith State.FILE_IS_MARKED_FOR_DELETION :=
  ⟨rfl,
   marked_for_deletion_terminal (fileWith State.FILE_IS_MARKED_FOR_DELETION)
     State.FILE_IS_IDLE 3 rfl⟩

/-- C9: `estimated_size(n)` fires the weight-changed callback (when one is
assigned) with delta equal to the signed difference `n - previous_size` —
negative when `n` is smaller — and then updates both `previous_size` and
`estimated_size` to `n`.  (The sizes are `std::size_t`; the signed difference
is exact for values fitting in 63 bits.) -/
theorem estimated_size_spec (f : File) (n : Nat)
    (hp : f.m_prevsize < 2 ^ 63) (hn : n < 2 ^ 63) :
    File.estimated_size_set f n =
      ({ f with m_prevsize := n, m_estimatedsize := n },
       if f.m_weightIsChangedcallback then some ((n : Int) - (f.m_prevsize : Int))
       else none) := by
  simp only [File.estimated_size_set]
  rw [toSigned64_sub64 n f.m_prevsize hn hp]

/-- C9 witness: shrinking a file with an assigned callback from size 10 to
size 3 fires the callback with the negative delta `3 - 10`. -/
theorem estimated_size_spec_witness :
    ({ fileWith State.FILE_IS_IDLE with
        m_prevsize := 10, m_weightIsChangedcallback := true } : File).m_prevsize < 2 ^ 63 ∧
    (3 : Nat) < 2 ^ 63 ∧
    File.estimated_size_set
        { fileWith State.FILE_IS_IDLE with
            m_prevsize := 10, m_weightIsChangedcallback := true } 3 =
      ({ ({ fileWith State.FILE_IS_IDLE with
              m_prevsize := 10, m_weightIsChangedcallback := true } : File) with
          m_prevsize := 3, m_estimatedsize := 3 },
       if ({ fileWith State.FILE_IS_IDLE with
              m_prevsize := 10, m_weightIsChangedcallback := true } : File).m_weightIsChangedcallback
       then some ((3 : Int) -
         (({ fileWith State.FILE_IS_IDLE with
              m_prevsize := 10, m_weightIsChangedcallback := true } : File).m_prevsize : Int))
       else none) :=
  ⟨by norm_num, by norm_num,
   estimated_size_spec
     { fileWith State.FILE_IS_IDLE with m_prevsize := 10, m_weightIsChangedcallback := true }
     3 (by norm_num) (by norm_num)⟩

/-- C10: the constructor leaves the users counter, the subscribers counter and
the resync interval unassigned when the network identity cannot be restored
(the file is born `FILE_IS_FORBIDDEN`); only a valid decode reaches the
assignments `users = 0`, `subscribers = 0` and the default retry interval. -/
theorem construct_spec (codec : Codec) (path : String) :
    ((codec path).descriptor.valid = false →
      (File.construct codec path).m_state = State.FILE_IS_FORBIDDEN ∧
      (File.construct codec path).m_users = none ∧
      (File.construct codec path).m_subscribers = none ∧
      (File.construct codec path).m_duration_next_attempt_to_sync = none) ∧
    ((codec path).descriptor.valid = true →
      (File.construct codec path).m_state = State.FILE_IS_AMORPHOUS ∧
      (File.construct codec path).m_users = some 0 ∧
      (File.construct codec path).m_subscribers = some 0 ∧
      (File.construct codec path).m_duration_next_attempt_to_sync =
        some defaultTimeSliceInMinutes) := by
  constructor <;> intro h <;> simp [File.construct, h]

/-- C10 witness: a file built from a rejected path is `FILE_IS_FORBIDDEN`
with unset counters and retry interval. -/
theorem construct_spec_witness :
    (badCodec "/x").descriptor.valid = false ∧
    ((File.construct badCodec "/x").m_state = State.FILE_IS_FORBIDDEN ∧
     (File.construct badCodec "/x").m_users = none ∧
     (File.construct badCodec "/x").m_subscribers = none ∧
     (File.construct badCodec "/x").m_duration_next_attempt_to_sync = none) :=
  ⟨rfl, (construct_spec badCodec "/x").1 rfl⟩

/-- C1 counterexample: a managed file in state `FILE_IS_IN_USE_BY_SYNC` —
outside `{IDLE, FORBIDDEN, AMORPHOUS}` — is nevertheless processed by
`deleteFile`: the call returns `true`, releases the object and drops the
on-disk file, because `isItemIdle` only rules out `FILE_HAS_CLIENTS`. -/
theorem deleteFile_in_use_by_sync_cex :
    (fileWith State.FILE_IS_IN_USE_BY_SYNC).m_state = State.FILE_IS_IN_USE_BY_SYNC ∧
    (deleteFile (fileWith State.FILE_IS_IN_USE_BY_SYNC) true 0).1 = true ∧
    (deleteFile (fileWith State.FILE_IS_IN_USE_BY_SYNC) true 0).2.2.1 = true ∧
    (deleteFile (fileWith State.FILE_IS_IN_USE_BY_SYNC) true 0).2.2.2 = true := by
  refine ⟨rfl, rfl, rfl, rfl⟩

/-- C1 (amended): `deleteFile(F)` returns `false` and leaves `F` unchanged
exactly when `F` is in `FILE_HAS_CLIENTS`; for every other state — including
`FILE_IS_IN_USE_BY_SYNC` and `FILE_IS_UNDER_WRITE` — it proceeds: it stores
`FILE_IS_MARKED_FOR_DELETION` through the unconditional state setter, drops
the file from disk when physical deletion is requested, and releases the
managed file object. -/
theorem deleteFile_spec (f : File) (physically : Bool) (now : Nat) :
    (f.m_state = State.FILE_HAS_CLIENTS →
      deleteFile f physically now = (false, f, false, false)) ∧
    (f.m_state ≠ State.FILE_HAS_CLIENTS →
      deleteFile f physically now =
        (true, File.state_set f State.FILE_IS_MARKED_FOR_DELETION now, true, physically) ∧
      (File.state_set f State.FILE_IS_MARKED_FOR_DELETION now).m_state =
        State.FILE_IS_MARKED_FOR_DELETION) := by
  unfold deleteFile isItemIdle
  constructor
  · intro h; simp [h]
  · intro h
    refine ⟨by simp [h], ?_⟩
    by_cases hm : f.m_state = State.FILE_IS_MARKED_FOR_DELETION
    · rw [marked_for_deletion_terminal f _ now hm]; exact hm
    · exact state_set_m_state f _ now hm

/-- C1 witness: deleting an `IDLE` file without physical removal returns
`true`, marks it and releases it. -/
theorem deleteFile_spec_witness :
    (fileWith State.FILE_IS_IDLE).m_state ≠ State.FILE_HAS_CLIENTS ∧
    (deleteFile (fileWith State.FILE_IS_IDLE) false 0 =
        (true,
         File.state_set (fileWith State.FILE_IS_IDLE) State.FILE_IS_MARKED_FOR_DELETION 0,
         true, false) ∧
      (File.state_set (fileWith State.FILE_IS_IDLE)
          State.FILE_IS_MARKED_FOR_DELETION 0).m_state =
        State.FILE_IS_MARKED_FOR_DELETION) :=
  ⟨by decide, (deleteFile_spec (fileWith State.FILE_IS_IDLE) false 0).2 (by decide)⟩

/-- C8 counterexample: on an `IDLE` file the `last_access(t)` setter succeeds
against the file system (`ec = 0`) yet writes no member of the file object —
the returned object is the input unchanged, so no in-memory timestamp is
updated to `t` (the only in-memory ptime member still differs from `t`). -/
theorem last_access_no_memory_cex :
    (fileWith State.FILE_IS_IDLE).m_state ≠ State.FILE_IS_FORBIDDEN ∧
    (File.last_access_set (fileWith State.FILE_IS_IDLE) fsA 7).2.2 = 0 ∧
    (File.last_access_set (fileWith State.FILE_IS_IDLE) fsA 7).1 =
      fileWith State.FILE_IS_IDLE ∧
    (fileWith State.FILE_IS_IDLE).m_lastsyncattempt ≠ some 7 := by
  refine ⟨by decide, rfl, rfl, by decide⟩

/-- C8 (amended): `last_access(t)` refuses with the nonzero code `-1` and
modifies nothing when the state is `FILE_IS_FORBIDDEN`; in every other state
it leaves the file object untouched, updates only the file-system mtime and
returns the file-system error code — `0` on success, in which case the stored
mtime reads back as `t`.  (There is no in-memory last-access timestamp.) -/
theorem last_access_spec (f : File) (fs : FsState) (t : Nat) :
    (f.m_state = State.FILE_IS_FORBIDDEN →
      File.last_access_set f fs t = (f, fs, -1)) ∧
    (f.m_state ≠ State.FILE_IS_FORBIDDEN →
      (File.last_access_set f fs t).1 = f ∧
      (File.last_access_set f fs t).2 = fsSetMtime fs f.m_fqp t ∧
      ((fs.map Prod.fst).contains f.m_fqp = true →
        (File.last_access_set f fs t).2.2 = 0 ∧
        fsFindMtime (File.last_access_set f fs t).2.1 f.m_fqp = some t)) := by
  constructor
  · intro h
    unfold File.last_access_set
    rw [if_pos h]
  · intro h
    unfold File.last_access_set
    rw [if_neg h]
    refine ⟨rfl, rfl, fun hc => ⟨?_, ?_⟩⟩
    · show (fsSetMtime fs f.m_fqp t).2 = 0
      unfold fsSetMtime
      rw [if_pos hc]
    · show fsFindMtime (fsSetMtime fs f.m_fqp t).1 f.m_fqp = some t
      unfold fsSetMtime
      rw [if_pos hc]
      exact fsFindMtime_update fs f.m_fqp t hc

/-- C8 witness: the non-forbidden branch at a concrete `IDLE` file whose path
is present in the file system. -/
theorem last_access_spec_witness :
    (fileWith State.FILE_IS_IDLE).m_state ≠ State.FILE_IS_FORBIDDEN ∧
    ((File.last_access_set (fileWith State.FILE_IS_IDLE) fsA 7).1 =
        fileWith State.FILE_IS_IDLE ∧
      (File.last_access_set (fileWith State.FILE_IS_IDLE) fsA 7).2 =
        fsSetMtime fsA (fileWith State.FILE_IS_IDLE).m_fqp 7 ∧
      ((fsA.map Prod.fst).contains (fileWith State.FILE_IS_IDLE).m_fqp = true →
        (File.last_access_set (fileWith State.FILE_IS_IDLE) fsA 7).2.2 = 0 ∧
        fsFindMtime (File.last_access_set (fileWith State.FILE_IS_IDLE) fsA 7).2.1
            (fileWith State.FILE_IS_IDLE).m_fqp = some 7)) :=
  ⟨by decide, (last_access_spec (fileWith State.FILE_IS_IDLE) fsA 7).2 (by decide)⟩

/-- C6 counterexample: adding a path that already has an entry in the store
leaves the store as it was and returns `true`, but hands the caller no file
at all — the out-parameter points at the freshly deleted candidate (modelled
`none`), not at the existing managed file. -/
theorem add_duplicate_cex :
    (fsLruAdd [("/cache/a", fileWith State.FILE_IS_IDLE)] demoCodec "/cache/a" 3).2.1 =
      none ∧
    (fsLruAdd [("/cache/a", fileWith State.FILE_IS_IDLE)] demoCodec "/cache/a" 3).1 =
      [("/cache/a", fileWith State.FILE_IS_IDLE)] ∧
    (fsLruAdd [("/cache/a", fileWith State.FILE_IS_IDLE)] demoCodec "/cache/a" 3).2.2 =
      true := by
  refine ⟨rfl, rfl, rfl⟩

/-- C6 (amended): `add(P)` on an already-present path creates no second entry
(the store is unchanged), destroys the caller's freshly constructed candidate
and returns `true`; the out-parameter is left pointing at the destroyed
candidate rather than at the existing managed file, which remains reachable
only through a lookup. -/
theorem add_duplicate_spec (store : List (String × File)) (codec : Codec)
    (path : String) (fsize : Nat)
    (h : (store.map Prod.fst).contains path = true) :
    fsLruAdd store codec path fsize = (store, none, true) := by
  have hfqp : ((File.estimated_size_set (File.construct codec path) fsize).1).m_fqp = path := by
    rw [estimated_size_set_m_fqp, construct_m_fqp]
  simp only [fsLruAdd, lruCacheBaseAdd]
  rw [hfqp, h]
  simp

/-- C6 witness: the amended statement at a concrete one-entry store. -/
theorem add_duplicate_spec_witness :
    (([("/y", fileWith State.FILE_IS_IDLE)].map Prod.fst).contains "/y" = true) ∧
    fsLruAdd [("/y", fileWith State.FILE_IS_IDLE)] demoCodec "/y" 3 =
      ([("/y", fileWith State.FILE_IS_IDLE)], none, true) :=
  ⟨by decide,
   add_duplicate_spec [("/y", fileWith State.FILE_IS_IDLE)] demoCodec "/y" 3 (by decide)⟩

/-- C7 counterexample: a codec-rejected path admitted anyway — `add` performs
no validity check, so the FORBIDDEN-born managed file lands in the cache
store. -/
theorem forbidden_admitted_cex :
    (badCodec "/x").descriptor.valid = false ∧
    ((fsLruAdd [] badCodec "/x" 4).1.map Prod.fst) = ["/x"] ∧
    ((fsLruAdd [] badCodec "/x" 4).1.map fun kv => kv.2.m_state) =
      [State.FILE_IS_FORBIDDEN] := by
  refine ⟨rfl, rfl, rfl⟩

/-- C7 (amended): a managed file constructed from a codec-rejected path is
born `FILE_IS_FORBIDDEN`; `reload` skips such a file and the autoload
construction path (`constructNew`) refuses it; but the public `add(P)` checks
nothing and admits the FORBIDDEN-born file into the store. -/
theorem invalid_path_spec (codec : Codec) (path : String) (mt sz : Nat)
    (store : List (String × File)) (rest : List FsEntry)
    (h : (codec path).descriptor.valid = false) :
    (File.construct codec path).m_state = State.FILE_IS_FORBIDDEN ∧
    constructNew codec path = none ∧
    reloadLoop codec store (⟨path, mt, sz⟩ :: rest) = reloadLoop codec store rest ∧
    ((store.map Prod.fst).contains path = false →
      (fsLruAdd store codec path sz).1 =
        store ++ [(path, (File.estimated_size_set (File.construct codec path) sz).1)] ∧
      ((File.estimated_size_set (File.construct codec path) sz).1).m_state =
        State.FILE_IS_FORBIDDEN) := by
  have hstate : (File.construct codec path).m_state = State.FILE_IS_FORBIDDEN := by
    simp [File.construct, h]
  refine ⟨hstate, ?_, ?_, ?_⟩
  · simp [constructNew, hstate]
  · simp [reloadLoop, h]
  · intro hc
    constructor
    · have hfqp : ((File.estimated_size_set (File.construct codec path) sz).1).m_fqp = path := by
        rw [estimated_size_set_m_fqp, construct_m_fqp]
      simp only [fsLruAdd, lruCacheBaseAdd]
      rw [hfqp, hc]
      simp
    · rw [estimated_size_set_m_state]
      exact hstate

/-- C7 witness: the amended statement at the all-rejecting codec and an empty
store. -/
theorem invalid_path_spec_witness :
    (badCodec "/x").descriptor.valid = false ∧
    ((File.construct badCodec "/x").m_state = State.FILE_IS_FORBIDDEN ∧
     constructNew badCodec "/x" = none ∧
     reloadLoop badCodec [] [⟨"/x", 1, 4⟩] = reloadLoop badCodec [] [] ∧
     ((([] : List (String × File)).map Prod.fst).contains "/x" = false →
       (fsLruAdd [] badCodec "/x" 4).1 =
         [] ++ [("/x", (File.estimated_size_set (File.construct badCodec "/x") 4).1)] ∧
       ((File.estimated_size_set (File.construct badCodec "/x") 4).1).m_state =
         State.FILE_IS_FORBIDDEN)) :=
  ⟨rfl, invalid_path_spec badCodec "/x" 1 4 [] [] rfl⟩

/-- C4 counterexample: a valid amorphous file whose prepare request fails to
schedule (`REQUEST_FAILED` instead of `OPERATION_ASYNC_SCHEDULED`) is left in
`FILE_IS_IN_USE_BY_SYNC`, not moved to `FILE_IS_FORBIDDEN` — `continuationFor`
logs and returns before any failure transition. -/
theorem continuationFor_sched_failure_cex :
    (fileWith State.FILE_IS_AMORPHOUS).valid = true ∧
    ((continuationFor (some (fileWith State.FILE_IS_AMORPHOUS)) true
        StatusInternal.REQUEST_FAILED cbOutOK 5).1.map File.m_state) ≠
      some State.FILE_IS_FORBIDDEN ∧
    ((continuationFor (some (fileWith State.FILE_IS_AMORPHOUS)) true
        StatusInternal.REQUEST_FAILED cbOutOK 5).1.map File.m_state) =
      some State.FILE_IS_IN_USE_BY_SYNC := by
  refine ⟨by decide, by decide, by decide⟩

/-- C4 (amended): every accepted (valid) file is first set to
`FILE_IS_IN_USE_BY_SYNC`.  When the port fails to parse or the prepare
scheduling status is any value other than `OPERATION_ASYNC_SCHEDULED`, the
function returns at once and the file stays `FILE_IS_IN_USE_BY_SYNC`.  When
the request was scheduled, the final state is `FILE_IS_FORBIDDEN` exactly when
the completion callback reports a status other than `COMPLETED_OK`, and
`FILE_IS_IDLE` exactly when it reports `COMPLETED_OK` (the callback's
`canceled` flag is never read, so cancellation matters only through the
status). -/
theorem continuationFor_spec (f : File) (portParses : Bool) (sched : StatusInternal)
    (cb : PrepareOutcome) (now : Nat) (hv : f.valid = true) :
    (continuationFor (some f) portParses sched cb now).2.head? =
      some State.FILE_IS_IN_USE_BY_SYNC ∧
    ((portParses = false ∨ sched ≠ StatusInternal.OPERATION_ASYNC_SCHEDULED) →
      ((continuationFor (some f) portParses sched cb now).1.map File.m_state) =
        some State.FILE_IS_IN_USE_BY_SYNC) ∧
    (portParses = true → sched = StatusInternal.OPERATION_ASYNC_SCHEDULED →
      cb.status ≠ TaskOverallStatus.COMPLETED_OK →
      ((continuationFor (some f) portParses sched cb now).1.map File.m_state) =
        some State.FILE_IS_FORBIDDEN) ∧
    (portParses = true → sched = StatusInternal.OPERATION_ASYNC_SCHEDULED →
      cb.status = TaskOverallStatus.COMPLETED_OK →
      ((continuationFor (some f) portParses sched cb now).1.map File.m_state) =
        some State.FILE_IS_IDLE) := by
  have hm : f.m_state ≠ State.FILE_IS_MARKED_FOR_DELETION := by
    intro h
    unfold File.valid at hv
    rw [if_pos (Or.inr h)] at hv
    exact Bool.false_ne_true hv
  have hvne : ¬ f.valid = false := by rw [hv]; decide
  have h1 : (File.state_set f State.FILE_IS_IN_USE_BY_SYNC now).m_state =
      State.FILE_IS_IN_USE_BY_SYNC := state_set_m_state f _ now hm
  have h1m : (File.state_set f State.FILE_IS_IN_USE_BY_SYNC now).m_state ≠
      State.FILE_IS_MARKED_FOR_DELETION := by
    rw [h1]; intro hh; exact State.noConfusion hh
  simp only [continuationFor]
  rw [if_neg hvne]
  by_cases hp : portParses = false <;>
    by_cases hs : sched = StatusInternal.OPERATION_ASYNC_SCHEDULED <;>
      by_cases hc : cb.status = TaskOverallStatus.COMPLETED_OK <;>
        simp [hp, hs, hc, state_set_m_state, hm, h1m, h1]

/-- C4 witness: a valid amorphous file, a scheduled request, a failing
callback — the amended statement instantiated. -/
theorem continuationFor_spec_witness :
    (fileWith State.FILE_IS_AMORPHOUS).valid = true ∧
    ((continuationFor (some (fileWith State.FILE_IS_AMORPHOUS)) true
        StatusInternal.OPERATION_ASYNC_SCHEDULED cbFail 5).2.head? =
      some State.FILE_IS_IN_USE_BY_SYNC ∧
    ((true = false ∨ StatusInternal.OPERATION_ASYNC_SCHEDULED ≠
        StatusInternal.OPERATION_ASYNC_SCHEDULED) →
      ((continuationFor (some (fileWith State.FILE_IS_AMORPHOUS)) true
          StatusInternal.OPERATION_ASYNC_SCHEDULED cbFail 5).1.map File.m_state) =
        some State.FILE_IS_IN_USE_BY_SYNC) ∧
    (true = true → StatusInternal.OPERATION_ASYNC_SCHEDULED =
        StatusInternal.OPERATION_ASYNC_SCHEDULED →
      cbFail.status ≠ TaskOverallStatus.COMPLETED_OK →
      ((continuationFor (some (fileWith State.FILE_IS_AMORPHOUS)) true
          StatusInternal.OPERATION_ASYNC_SCHEDULED cbFail 5).1.map File.m_state) =
        some State.FILE_IS_FORBIDDEN) ∧
    (true = true → StatusInternal.OPERATION_ASYNC_SCHEDULED =
        StatusInternal.OPERATION_ASYNC_SCHEDULED →
      cbFail.status = TaskOverallStatus.COMPLETED_OK →
      ((continuationFor (some (fileWith State.FILE_IS_AMORPHOUS)) true
          StatusInternal.OPERATION_ASYNC_SCHEDULED cbFail 5).1.map File.m_state) =
        some State.FILE_IS_IDLE)) :=
  ⟨by decide,
   continuationFor_spec (fileWith State.FILE_IS_AMORPHOUS) true
     StatusInternal.OPERATION_ASYNC_SCHEDULED cbFail 5 (by decide)⟩

/-- C5: evaluation of `reload` at the inputs that decide the claim.
An empty root string returns failure with the cache untouched.  A nonempty
root under which no regular file exists (the directory is empty, or the path
is not a directory) drives the code into dereferencing
`result_set.begin()` on an empty multimap — undefined behaviour, `none` in
the embedding — although the claim promises a normal, successful pass.
A root holding regular files is processed as the claim says: the store is
rebuilt with one `FILE_IS_IDLE` entry per decodable file in ascending mtime
order, the undecodable file is skipped, and `m_startTime` is seeded from the
oldest regular file. -/
theorem reload_eval :
    reload ⟨[], "/old", 0⟩ demoCodec "" demoEntries true =
      some (⟨[], "/old", 0⟩, false) ∧
    reload ⟨[], "/old", 0⟩ demoCodec "/cache" [] true = none ∧
    reload ⟨[], "/old", 0⟩ demoCodec "/cache" demoEntries false = none ∧
    (reload ⟨[], "/old", 0⟩ demoCodec "/cache" demoEntries true).map
        (fun r => ((r.1.store.map fun kv => (kv.1, kv.2.m_state)),
                   r.1.m_root, r.1.m_startTime, r.2)) =
      some ([("/cache/a", State.FILE_IS_IDLE), ("/cache/b", State.FILE_IS_IDLE)],
            "/cache", 5, true) := by
  refine ⟨rfl, rfl, rfl, by decide⟩

end DfsCache
